import Mathlib

/-!
Verification development for the eBPF process-telemetry collector
(kernel-side per-CPU payload arena, user-side reassembler, PID filter,
event-id generator).  Each C function used by the claims is shallowly
embedded as an executable Lean function; machine integers are modelled
as Nat with explicit reductions modulo 2^32 / 2^64 where the C
arithmetic wraps.  Map lookups that can fail on the C side are modelled
as Boolean / Option parameters.
-/

namespace Tracer

/-! ### Constants from bootstrap.templ.h and bootstrap.c -/

def PAYLOAD_BUFFER_ENTRY_SIZE : Nat := 64

def PAYLOAD_BUFFER_N_ENTRIES_PER_CPU : Nat := 16 * 1024

def PAYLOAD_FLUSH_TIMEOUT_NS : Nat := 750000000

def MAX_BLACKLIST_ENTRIES : Nat := 32

/-- Scratch-pad size of the user-side reassembler (bootstrap.c). -/
def FLUSH_MAX_BYTES : Nat := 64 * 1024

/-- Capacity of the user-side PID sets (bootstrap-filter.h). -/
def PIDSET_CAP : Nat := 8192

def U32 : Nat := 2 ^ 32

def U64 : Nat := 2 ^ 64

/-- Wrapping unsigned 64-bit subtraction, as in C u64 arithmetic. -/
def u64sub (a b : Nat) : Nat := (a + (U64 - b % U64)) % U64

/-! ### Event types

The numeric values come from the generated bootstrap.gen.h; the
identifiers below are the tracepoints instantiated by TRACEPOINT_LIST
in bootstrap.bpf.c.  Only equality on the tag is used by the embedded
code, so the enumeration is modelled as an inductive type. -/

inductive event_type where
  | sched_sched_process_exec
  | sched_sched_process_exit
  | syscalls_sys_enter_openat
  | syscalls_sys_exit_openat
  | syscalls_sys_enter_read
  | syscalls_sys_enter_write
  | vmscan_mm_vmscan_direct_reclaim_begin
  | oom_mark_victim
deriving DecidableEq, Repr

/-- Kernel-to-user event header (struct event_header_kernel in
bootstrap.templ.h): payload locator plus identity fields. -/
structure event_header_kernel where
  payload_start_index : Nat
  payload_end_index : Nat
  etype : event_type
  timestamp_ns : Nat
  pid : Nat
  ppid : Nat
  upid : Nat
  uppid : Nat
  comm : String
deriving Repr, DecidableEq

/-! ### PID sets (bootstrap-filter.h)

The C pid_set is an unordered array with a count, capacity PIDSET_CAP.
It is modelled as a list of the live entries in array order. -/

def pidset_has (s : List Nat) (v : Nat) : Bool := s.contains v

def pidset_add (s : List Nat) (v : Nat) : List Nat :=
  if PIDSET_CAP ≤ s.length ∨ pidset_has s v then s else s ++ [v]

/-- Deletion replaces the first occurrence with the last live entry and
shrinks the count, exactly as the C pidset_del does. -/
def pidset_del (s : List Nat) (v : Nat) : List Nat :=
  if s.indexOf v < s.length then (s.set (s.indexOf v) (s.getLastD 0)).dropLast else s

structure filter_state where
  blacklist : List Nat
  whitelist : List Nat
deriving Repr, DecidableEq

/-- bootstrap_filter__register_skeleton: reset both sets and pre-seed
the blacklist with 0, 1, 2 and the tracer's own PID. -/
def bootstrap_filter__register_skeleton (self_pid : Nat) : filter_state :=
  { blacklist := pidset_add (pidset_add (pidset_add (pidset_add [] 0) 1) 2) self_pid
    whitelist := [] }

/-- Exec-triggered invalidation step of bootstrap_filter__should_skip
(PID-reuse handling). -/
def filter_invalidate (st : filter_state) (e : event_header_kernel) : filter_state :=
  if e.etype = event_type.sched_sched_process_exec then
    { blacklist := pidset_del st.blacklist e.pid
      whitelist := pidset_del st.whitelist e.pid }
  else st

/-- Predicate classification step of bootstrap_filter__should_skip: an
unknown PID is classified into exactly one of the two sets.  The
classifying predicate (should_blacklist_process, which consults comm
and /proc/pid/cmdline) is passed in as a function. -/
def filter_classify (pred : event_header_kernel → Bool) (st : filter_state)
    (e : event_header_kernel) : filter_state :=
  if ¬ pidset_has st.blacklist e.pid ∧ ¬ pidset_has st.whitelist e.pid then
    if pred e then { st with blacklist := pidset_add st.blacklist e.pid }
    else { st with whitelist := pidset_add st.whitelist e.pid }
  else st

/-- bootstrap_filter__should_skip, embedded line by line: exec
invalidation, classification of unknown PIDs, the suppression decision,
exit tidy-up.  The kernel blacklist sync is compiled out
(ENABLE_KERNEL_BLACKLIST_SYNC = false).  Returns the decision and the
updated filter state. -/
def bootstrap_filter__should_skip (pred : event_header_kernel → Bool)
    (st : filter_state) (e : event_header_kernel) : Bool × filter_state :=
  let st1 :=
    if e.etype = event_type.sched_sched_process_exec then
      { blacklist := pidset_del st.blacklist e.pid
        whitelist := pidset_del st.whitelist e.pid }
    else st
  let st2 :=
    if ¬ pidset_has st1.blacklist e.pid ∧ ¬ pidset_has st1.whitelist e.pid then
      if pred e then { st1 with blacklist := pidset_add st1.blacklist e.pid }
      else { st1 with whitelist := pidset_add st1.whitelist e.pid }
    else st1
  let skip := pidset_has st2.blacklist e.pid || pidset_has st2.blacklist e.ppid
  let st3 :=
    if e.etype = event_type.sched_sched_process_exit then
      { blacklist := pidset_del st2.blacklist e.pid
        whitelist := pidset_del st2.whitelist e.pid }
    else st2
  (skip, st3)

/-! ### Event-id generator (generate_event_id in bootstrap.c) -/

structure gen_state where
  base : Nat
  counter : Nat
deriving Repr, DecidableEq

/-- generate_event_id: lazily seed the base from CLOCK_REALTIME
(base = (sec << 32) ^ nsec, u64), then return base + ++counter.
The clock reading used for a (re-)seed is passed in. -/
def generate_event_id (sec nsec : Nat) (st : gen_state) : Nat × gen_state :=
  let base := if st.base = 0 then ((sec <<< 32) % U64) ^^^ (nsec % U64) else st.base
  let counter := (st.counter + 1) % U64
  ((base + counter) % U64, { base := base, counter := counter })

/-- The sequence of event ids produced by a run: one generator call per
delivered event, fed by the corresponding clock readings. -/
def run_event_ids (st : gen_state) : List (Nat × Nat) → List Nat
  | [] => []
  | c :: rest =>
    let r := generate_event_id c.1 c.2 st
    r.1 :: run_event_ids r.2 rest

/-! ### Kernel side: unique process ids and event creation
(bootstrap.bpf.c) -/

/-- make_upid: combine the low 24 bits of the PID (shifted up by 40)
with the low 40 bits of the process start time. -/
def make_upid (pid start_ns : Nat) : Nat :=
  ((pid &&& 0xFFFFFF) <<< 40) ||| (start_ns &&& 0xFFFFFFFFFF)

/-- Task-side inputs of the kernel handlers: identity and timing data
read from the current task_struct. -/
structure task_info where
  pid : Nat
  tid : Nat
  ppid : Nat
  start_time : Nat
  parent_start_time : Nat
  comm : String
  exit_code : Int
  exit_signal : Int
deriving Repr, DecidableEq

/-- Header emitted by the bpf.c revision of create_event: the payload
locator is (cpu, page_index, byte_offset); flush_signal is set later by
submit_event. -/
structure event_header_bpf where
  etype : event_type
  timestamp_ns : Nat
  pid : Nat
  ppid : Nat
  upid : Nat
  uppid : Nat
  comm : String
  payload_cpu : Nat
  payload_page_index : Nat
  payload_byte_offset : Nat
deriving Repr, DecidableEq

/-- Per-CPU cursor of the payload arena (struct buffer_state). -/
structure buffer_state where
  current_page : Nat
  current_offset : Nat
  page_start_timestamp_ns : Nat
deriving Repr, DecidableEq

/-- create_event: reserve a ringbuf slot (ring_ok) and fill the header;
upid and uppid are computed with make_upid.  The payload locator is
copied from the per-CPU buffer_state when its lookup succeeds, else the
reserved header's locator fields keep their initial value (modelled as
zero). -/
def create_event (t : task_info) (etype : event_type) (ring_ok : Bool)
    (ktime boot_ns cpu : Nat) (st : Option buffer_state) : Option event_header_bpf :=
  if ring_ok = false then none
  else
    some
      { etype := etype
        timestamp_ns := (ktime + boot_ns) % U64
        pid := t.pid
        ppid := t.ppid
        upid := make_upid t.pid t.start_time
        uppid := make_upid t.ppid t.parent_start_time
        comm := t.comm
        payload_cpu := cpu
        payload_page_index := (st.map buffer_state.current_page).getD 0
        payload_byte_offset := (st.map buffer_state.current_offset).getD 0 }

/-! ### Kernel side: per-CPU bump allocator (buf_malloc) -/

/-- cpu_page_key: CPU c owns payload_buffer keys
[c * N_PAGES, (c+1) * N_PAGES). -/
def cpu_page_key (N_PAGES cpu page_index : Nat) : Nat :=
  cpu * N_PAGES + page_index % N_PAGES

/-- Zero the 8 bytes at (key, off .. off+8) of the arena. -/
def zero8 (arena : Nat → Nat → Nat) (key off : Nat) : Nat → Nat → Nat :=
  fun k o => if k = key ∧ off ≤ o ∧ o < off + 8 then 0 else arena k o

/-- Result of one buf_malloc call: the returned slice (arena key and
byte offset inside that page; none models a NULL return), the state of
the per-CPU cursor afterwards, and the arena contents afterwards. -/
structure malloc_result where
  ret : Option (Nat × Nat)
  state : buffer_state
  arena : Nat → Nat → Nat

/-- The page-rollover step of buf_malloc: when the allocation would
reach past the page end or the page has outlived the flush timeout,
zero 8 bytes at the abandoned offset (when at least 8 bytes of slack
remain and the page lookup succeeds) and advance the cursor to the
next page.  Returns the cursor state and the arena contents after the
step. -/
def buf_malloc_roll (PAGE_SIZE N_PAGES cpu : Nat) (page_ok : Nat → Bool)
    (arena : Nat → Nat → Nat) (st1 : buffer_state) (now size : Nat) :
    buffer_state × (Nat → Nat → Nat) :=
  if PAGE_SIZE ≤ st1.current_offset + size ∨
      PAYLOAD_FLUSH_TIMEOUT_NS < u64sub now st1.page_start_timestamp_ns then
    (({ current_page := (st1.current_page + 1) % N_PAGES
        current_offset := 0
        page_start_timestamp_ns := now } : buffer_state),
      if st1.current_offset + 8 ≤ PAGE_SIZE ∧
          page_ok (cpu_page_key N_PAGES cpu st1.current_page) = true ∧
          st1.current_offset ≤ PAGE_SIZE - 8 then
        zero8 arena (cpu_page_key N_PAGES cpu st1.current_page) st1.current_offset
      else arena)
  else (st1, arena)

/-- buf_malloc, embedded from bootstrap.bpf.c: size guard, buffer_state
lookup, lazy timestamp initialization, conditional page rollover with
slack zeroing, payload page lookup, verifier bound check, cursor bump.
PAGE_SIZE and N_PAGES come from the generated header; they are
parameters here.  state_ok / page_ok model the bpf map lookups
(the buffer_state lookup and the payload page lookups). -/
def buf_malloc (PAGE_SIZE N_PAGES cpu : Nat) (state_ok : Bool)
    (page_ok : Nat → Bool) (arena : Nat → Nat → Nat) (st : buffer_state)
    (now size : Nat) : malloc_result :=
  if PAGE_SIZE < size then ⟨none, st, arena⟩
  else if state_ok = false then ⟨none, st, arena⟩
  else
    let st1 := if st.page_start_timestamp_ns = 0
      then { st with page_start_timestamp_ns := now } else st
    let rolled := buf_malloc_roll PAGE_SIZE N_PAGES cpu page_ok arena st1 now size
    if page_ok (cpu_page_key N_PAGES cpu rolled.1.current_page) = false then
      ⟨none, rolled.1, rolled.2⟩
    else if PAGE_SIZE - size < rolled.1.current_offset then ⟨none, rolled.1, rolled.2⟩
    else
      ⟨some (cpu_page_key N_PAGES cpu rolled.1.current_page, rolled.1.current_offset),
        { rolled.1 with current_offset := rolled.1.current_offset + size }, rolled.2⟩

/-- sizeof(struct payload_kernel_sched_sched_process_exit): one C int. -/
def SIZEOF_PAYLOAD_EXIT : Nat := 4

/-- payload_fill_sched_sched_process_exit: allocate the fixed payload
with buf_malloc and, on success, store the task's raw exit_code.
Returns the allocator result and the value written to the payload's
exit_code field (none when the allocation failed). -/
def payload_fill_sched_sched_process_exit (PAGE_SIZE N_PAGES cpu : Nat)
    (state_ok : Bool) (page_ok : Nat → Bool) (arena : Nat → Nat → Nat)
    (st : buffer_state) (now : Nat) (t : task_info) :
    malloc_result × Option Int :=
  let r := buf_malloc PAGE_SIZE N_PAGES cpu state_ok page_ok arena st now SIZEOF_PAYLOAD_EXIT
  (r, if r.ret.isSome then some t.exit_code else none)

/-! ### User side: the reassembler (handle_header_flush in bootstrap.c) -/

/-- Consumer-visible dynamic field (struct flex_buf): byte length plus
data pointer, modelled as the byte offset of the field inside the
consumer payload buffer (none models a NULL data pointer). -/
structure flex_buf where
  byte_length : Nat
  data : Option Nat
deriving Repr, DecidableEq

/-- The empty consumer field (length 0, data NULL). -/
def flex_empty : flex_buf := ⟨0, none⟩

/-- The scratch-copy loop of handle_header_flush: for i below entries,
stop as soon as the destination offset i * ENTRY_SIZE reaches the
scratch size, otherwise record the arena key
cpu_base + (start_in_cpu + i) mod per_cpu that is copied into slot i.
Arguments: i is the loop counter, remaining the entries still to go. -/
def flush_copy_go (cpu_base start_in_cpu : Nat) : Nat → Nat → List Nat
  | _, 0 => []
  | i, remaining + 1 =>
    if FLUSH_MAX_BYTES ≤ i * PAYLOAD_BUFFER_ENTRY_SIZE then []
    else
      (cpu_base + (start_in_cpu + i) % PAYLOAD_BUFFER_N_ENTRIES_PER_CPU) ::
        flush_copy_go cpu_base start_in_cpu (i + 1) remaining

/-- Arena keys copied into the scratch buffer, in copy order. -/
def flush_copy (cpu_base start_in_cpu entries : Nat) : List Nat :=
  flush_copy_go cpu_base start_in_cpu 0 entries

def BYTES_PER_CPU : Nat := PAYLOAD_BUFFER_N_ENTRIES_PER_CPU * PAYLOAD_BUFFER_ENTRY_SIZE

/-- Scratch offset of a descriptor's byte_index: u32 arithmetic
(byte_index + bytes_per_cpu - buffer_start) % bytes_per_cpu. -/
def desc_rel_idx (buffer_start byte_idx : Nat) : Nat :=
  ((byte_idx + BYTES_PER_CPU + (U32 - buffer_start % U32)) % U32) % BYTES_PER_CPU

/-- byte_index of an index/length descriptor: (u32)(desc >> 32). -/
def desc_byte_idx (desc : Nat) : Nat := (desc >>> 32) % U32

/-- byte_length of an index/length descriptor: (u32)(desc & 0xFFFFFFFF). -/
def desc_byte_len (desc : Nat) : Nat := desc &&& 0xFFFFFFFF

/-- The dynamic-attribute loop of handle_header_flush.  The descriptor
values (read through the src roots provided by the generated
payload_to_dynamic_allocation_roots) are processed in order; dyn_write
is the current write offset inside the consumer payload buffer
(starting at the fixed size) and pl_size the buffer's total size.
Each descriptor yields exactly one consumer flex_buf.  The source-range
check mirrors the C faithfully: rel_idx and byte_len are both u32, so
their sum wraps modulo 2^32 before the comparison with the scratch
size; the destination check adds a u32 to a 64-bit pointer and does
not wrap. -/
def resolve_dyn_fields (pl_size buffer_start : Nat) : Nat → List Nat → List flex_buf
  | _, [] => []
  | dyn_write, desc :: rest =>
    if desc = 0 then flex_empty :: resolve_dyn_fields pl_size buffer_start dyn_write rest
    else
      let byte_len := desc_byte_len desc
      let rel_idx := desc_rel_idx buffer_start (desc_byte_idx desc)
      if byte_len = 0 ∨ FLUSH_MAX_BYTES < (rel_idx + byte_len) % U32 ∨
          pl_size < dyn_write + byte_len then
        flex_empty :: resolve_dyn_fields pl_size buffer_start dyn_write rest
      else
        ⟨byte_len, some dyn_write⟩ ::
          resolve_dyn_fields pl_size buffer_start (dyn_write + byte_len) rest

/-- What one delivered event looks like at the callback boundary:
the event id assigned to the staged header and to the payload context,
the payload context's event type, whether the payload data pointer was
set to NULL (header-only events), the number of payload entries the
slice resolves to, the arena keys copied into scratch, and the resolved
dynamic fields. -/
structure delivered_event where
  header_event_id : Nat
  payload_event_id : Nat
  payload_etype : event_type
  payload_data_null : Bool
  entries : Nat
  copied_keys : List Nat
  fields : List flex_buf
deriving Repr, DecidableEq

/-- Result of one handle_header_flush call: updated filter and
generator state, the delivery (none when the PID filter suppressed the
event and the callback was not invoked), and the C return value. -/
structure handle_result where
  fs : filter_state
  gs : gen_state
  delivered : Option delivered_event
  ret : Int

/-- handle_header_flush, embedded from bootstrap.c.  Inputs beyond the
header: the classifying predicate and filter state, the generator state
and the clock reading a (re-)seed would use, the fixed payload size of
the event type (from the generated get_payload_fixed_size), the
consumer payload buffer size, and the descriptor values delivered by
the generated payload_to_dynamic_allocation_roots. -/
def handle_header_flush (pred : event_header_kernel → Bool)
    (fs : filter_state) (gs : gen_state) (sec nsec : Nat)
    (kh : event_header_kernel) (fixed pl_size : Nat)
    (descs : List Nat) : handle_result :=
  let skipped := bootstrap_filter__should_skip pred fs kh
  if skipped.1 then ⟨skipped.2, gs, none, 0⟩
  else
    let gen := generate_event_id sec nsec gs
    let eid := gen.1
    let per_cpu := PAYLOAD_BUFFER_N_ENTRIES_PER_CPU
    let raw_start := kh.payload_start_index
    let raw_end := kh.payload_end_index
    let cpu_base := raw_start - raw_start % per_cpu
    let start_in_cpu := raw_start % per_cpu
    let end_in_cpu := raw_end % per_cpu
    let entries := (end_in_cpu + per_cpu - start_in_cpu) % per_cpu
    if entries = 0 then
      ⟨skipped.2, gen.2, some ⟨eid, eid, kh.etype, true, entries, [], []⟩, 0⟩
    else
      let keys := flush_copy cpu_base start_in_cpu entries
      let buffer_start := (raw_start * PAYLOAD_BUFFER_ENTRY_SIZE) % U32
      let fields := resolve_dyn_fields pl_size buffer_start fixed descs
      ⟨skipped.2, gen.2, some ⟨eid, eid, kh.etype, false, entries, keys, fields⟩, 0⟩

/-! ### User side: the initialization entry point (bootstrap.c) -/

/-- Header context handed to the entry point: data is the staging
pointer, nullable. -/
structure header_ctx where
  data : Option Unit
deriving Repr, DecidableEq

/-- Payload context handed to the entry point: data is the consumer
buffer pointer, nullable; size its capacity. -/
structure payload_ctx where
  data : Option Unit
  size : Nat
deriving Repr, DecidableEq

/-- Observable side effects of the entry point, in program order. -/
inductive init_step where
  | bpf_open
  | bpf_load
  | config_write
  | register_filter
  | bpf_attach
  | ringbuf_new
  | poll_loop
deriving Repr, DecidableEq

/-- Outcomes of the fallible environment calls made by the entry
point, plus the number of events the drain loop delivers to the
callback before shutdown. -/
structure init_env where
  calloc_ok : Bool
  open_ok : Bool
  load_ok : Bool
  config_fd_ok : Bool
  config_write_ok : Bool
  attach_ok : Bool
  payload_fd_ok : Bool
  ringbuf_ok : Bool
  events_delivered : Nat
deriving Repr, DecidableEq

/-- The C initialize() entry point of bootstrap.c: argument validation,
then open / load / config / filter registration / attach / ringbuf
setup and the drain loop.  Returns the C return value, the side-effect
trace, and the number of callback invocations. -/
def initialize_entry (hdr : Option header_ctx) (pl : Option payload_ctx)
    (cb_null : Bool) (env : init_env) : Int × List init_step × Nat :=
  match hdr, pl with
  | some h, some p =>
    if h.data = none ∨ p.data = none ∨ cb_null then (-22, [], 0)
    else if env.calloc_ok = false then (-12, [], 0)
    else if env.open_ok = false then (-1, [init_step.bpf_open], 0)
    else if env.load_ok = false then (-1, [init_step.bpf_open, init_step.bpf_load], 0)
    else if env.config_fd_ok = false then
      (-1, [init_step.bpf_open, init_step.bpf_load], 0)
    else if env.config_write_ok = false then
      (-1, [init_step.bpf_open, init_step.bpf_load, init_step.config_write], 0)
    else if env.attach_ok = false then
      (-1, [init_step.bpf_open, init_step.bpf_load, init_step.config_write,
            init_step.register_filter], 0)
    else if env.payload_fd_ok = false then
      (-1, [init_step.bpf_open, init_step.bpf_load, init_step.config_write,
            init_step.register_filter, init_step.bpf_attach], 0)
    else if env.ringbuf_ok = false then
      (-1, [init_step.bpf_open, init_step.bpf_load, init_step.config_write,
            init_step.register_filter, init_step.bpf_attach], 0)
    else
      (0, [init_step.bpf_open, init_step.bpf_load, init_step.config_write,
           init_step.register_filter, init_step.bpf_attach, init_step.ringbuf_new,
           init_step.poll_loop], env.events_delivered)
  | _, _ => (-22, [], 0)

/-- Concrete task used to exercise the process-exit fill: a process
that was killed by a signal, i.e. exit_code 0 and a nonzero
exit_signal. -/
def exit_task0 : task_info :=
  { pid := 100, tid := 100, ppid := 1, start_time := 555, parent_start_time := 444
    comm := "proc", exit_code := 0, exit_signal := 9 }

/-- Concrete task that exited normally with status 1 (raw
task_struct exit_code as the kernel stores it). -/
def exit_task1 : task_info :=
  { pid := 100, tid := 100, ppid := 1, start_time := 555, parent_start_time := 444
    comm := "false", exit_code := 256, exit_signal := 0 }

/-- Concrete header used to exercise the reassembler: an openat event
whose payload slice is empty (start_index = end_index). -/
def kh_empty : event_header_kernel :=
  { payload_start_index := 3, payload_end_index := 3
    etype := event_type.syscalls_sys_enter_openat, timestamp_ns := 123
    pid := 100, ppid := 200, upid := 11, uppid := 22, comm := "ls" }

/-- Concrete header whose payload slice holds two entries. -/
def kh_two : event_header_kernel :=
  { payload_start_index := 3, payload_end_index := 5
    etype := event_type.syscalls_sys_enter_openat, timestamp_ns := 123
    pid := 100, ppid := 200, upid := 11, uppid := 22, comm := "ls" }

/-! ## Helper lemmas -/

theorem pidset_has_iff (s : List Nat) (v : Nat) : pidset_has s v = true ↔ v ∈ s := by
  simp [pidset_has, List.contains]

theorem mem_pidset_add (s : List Nat) (v x : Nat) (h : s.length < PIDSET_CAP) :
    x ∈ pidset_add s v ↔ x ∈ s ∨ x = v := by
  unfold pidset_add
  by_cases hc : pidset_has s v = true
  · have hv : v ∈ s := (pidset_has_iff s v).mp hc
    simp only [hc, or_true, if_true]
    constructor
    · exact fun hx => Or.inl hx
    · rintro (hx | rfl)
      · exact hx
      · exact hv
  · have hlen : ¬ PIDSET_CAP ≤ s.length := Nat.not_le.mpr h
    rw [if_neg (by simp [hc, hlen])]
    simp [List.mem_append]

theorem make_upid_mod (p s : Nat) : make_upid p s % 2 ^ 40 = s % 2 ^ 40 := by
  have hmask : (0xFFFFFFFFFF : Nat) = 2 ^ 40 - 1 := by norm_num
  apply Nat.eq_of_testBit_eq
  intro i
  simp only [make_upid, hmask, Nat.testBit_mod_two_pow, Nat.testBit_lor,
    Nat.testBit_shiftLeft, Nat.testBit_and, Nat.testBit_two_pow_sub_one]
  by_cases h : i < 40
  · have h2 : ¬ 40 ≤ i := by omega
    simp [h, h2]
  · have h2 : 40 ≤ i := by omega
    simp [h, h2]

theorem entries_eq_mod (a b : Nat) :
    (((b % PAYLOAD_BUFFER_N_ENTRIES_PER_CPU + PAYLOAD_BUFFER_N_ENTRIES_PER_CPU -
        a % PAYLOAD_BUFFER_N_ENTRIES_PER_CPU) % PAYLOAD_BUFFER_N_ENTRIES_PER_CPU : Nat) : Int) =
      ((b : Int) - (a : Int)) % (PAYLOAD_BUFFER_N_ENTRIES_PER_CPU : Int) := by
  simp only [PAYLOAD_BUFFER_N_ENTRIES_PER_CPU]
  omega

theorem flush_copy_go_length (cb sic : Nat) :
    ∀ remaining i, (flush_copy_go cb sic i remaining).length =
      min remaining (FLUSH_MAX_BYTES / PAYLOAD_BUFFER_ENTRY_SIZE - i) := by
  intro remaining
  induction remaining with
  | zero => intro i; simp [flush_copy_go]
  | succ rem ih =>
    intro i
    unfold flush_copy_go
    by_cases hb : FLUSH_MAX_BYTES ≤ i * PAYLOAD_BUFFER_ENTRY_SIZE
    · rw [if_pos hb]
      simp only [List.length_nil]
      simp only [FLUSH_MAX_BYTES, PAYLOAD_BUFFER_ENTRY_SIZE] at hb ⊢
      omega
    · rw [if_neg hb]
      simp only [List.length_cons, ih (i + 1)]
      simp only [FLUSH_MAX_BYTES, PAYLOAD_BUFFER_ENTRY_SIZE] at hb ⊢
      omega

theorem flush_copy_length (cb sic entries : Nat) :
    (flush_copy cb sic entries).length =
      min entries (FLUSH_MAX_BYTES / PAYLOAD_BUFFER_ENTRY_SIZE) := by
  unfold flush_copy
  rw [flush_copy_go_length]
  simp

theorem resolve_dyn_fields_length (pl_size buffer_start : Nat) :
    ∀ (descs : List Nat) (dyn_write : Nat),
      (resolve_dyn_fields pl_size buffer_start dyn_write descs).length = descs.length := by
  intro descs
  induction descs with
  | nil => intro dw; simp [resolve_dyn_fields]
  | cons d rest ih =>
    intro dw
    by_cases h0 : d = 0
    · simp [resolve_dyn_fields, h0, ih]
    · simp only [resolve_dyn_fields, if_neg h0]
      split
      · simp [ih]
      · simp [ih]

theorem resolve_dyn_fields_src_overflow :
    ∀ (descs : List Nat) (pl_size buffer_start dyn_write i desc : Nat),
      descs.get? i = some desc → desc ≠ 0 →
      FLUSH_MAX_BYTES <
        (desc_rel_idx buffer_start (desc_byte_idx desc) + desc_byte_len desc) % U32 →
      (resolve_dyn_fields pl_size buffer_start dyn_write descs).get? i =
        some flex_empty := by
  intro descs
  induction descs with
  | nil => intro pl bs dw i desc hget; simp at hget
  | cons d rest ih =>
    intro pl bs dw i desc hget hnz hover
    cases i with
    | zero =>
      have hd : d = desc := by simpa using hget
      subst hd
      by_cases h0 : d = 0
      · simp [resolve_dyn_fields, h0]
      · simp only [resolve_dyn_fields, if_neg h0]
        rw [if_pos (Or.inr (Or.inl hover))]
        rfl
    | succ i =>
      have hget2 : rest.get? i = some desc := by simpa using hget
      by_cases h0 : d = 0
      · simp only [resolve_dyn_fields, if_pos h0, List.get?_cons_succ]
        exact ih pl bs dw i desc hget2 hnz hover
      · simp only [resolve_dyn_fields, if_neg h0]
        split
        · simp only [List.get?_cons_succ]
          exact ih pl bs dw i desc hget2 hnz hover
        · simp only [List.get?_cons_succ]
          exact ih pl bs (dw + desc_byte_len d) i desc hget2 hnz hover

theorem buf_malloc_roll_state (P N cpu : Nat) (page_ok : Nat → Bool)
    (arena : Nat → Nat → Nat) (st1 : buffer_state) (now size : Nat) :
    (buf_malloc_roll P N cpu page_ok arena st1 now size).1 =
      { current_page := (st1.current_page + 1) % N, current_offset := 0
        page_start_timestamp_ns := now } ∨
    ((buf_malloc_roll P N cpu page_ok arena st1 now size).1 = st1 ∧
      st1.current_offset + size < P) := by
  unfold buf_malloc_roll
  by_cases hr : P ≤ st1.current_offset + size ∨
      PAYLOAD_FLUSH_TIMEOUT_NS < u64sub now st1.page_start_timestamp_ns
  · rw [if_pos hr]; left; rfl
  · rw [if_neg hr]
    right
    refine ⟨rfl, ?_⟩
    rcases Nat.lt_or_ge (st1.current_offset + size) P with h | h
    · exact h
    · exact absurd (Or.inl h) hr

theorem run_event_ids_invariant (clocks : List (Nat × Nat)) (st : gen_state)
    (hbase0 : 0 < st.base) (hbase : st.base < 2 ^ 63)
    (hcnt : st.counter + clocks.length ≤ 2 ^ 63) :
    List.Pairwise (· < ·) (run_event_ids st clocks) ∧
    ∀ id ∈ run_event_ids st clocks, st.base + st.counter < id := by
  induction clocks generalizing st with
  | nil => simp [run_event_ids]
  | cons c rest ih =>
    have hb0 : ¬ st.base = 0 := Nat.pos_iff_ne_zero.mp hbase0
    have hcount : (st.counter + 1) % U64 = st.counter + 1 := by
      apply Nat.mod_eq_of_lt
      have : st.counter + 1 ≤ 2 ^ 63 := by
        have := hcnt; simp [List.length_cons] at this; omega
      simp only [U64]; omega
    have hid : (st.base + (st.counter + 1)) % U64 = st.base + st.counter + 1 := by
      have h1 : st.counter + 1 ≤ 2 ^ 63 := by
        have := hcnt; simp [List.length_cons] at this; omega
      have h2 : st.base + (st.counter + 1) < U64 := by simp only [U64]; omega
      rw [Nat.mod_eq_of_lt h2]; omega
    have hstep : run_event_ids st (c :: rest) =
        (st.base + st.counter + 1) ::
          run_event_ids { base := st.base, counter := st.counter + 1 } rest := by
      show (generate_event_id c.1 c.2 st).1 ::
          run_event_ids (generate_event_id c.1 c.2 st).2 rest = _
      unfold generate_event_id
      simp only [hb0, if_false, hcount, hid]
    have hrec := ih { base := st.base, counter := st.counter + 1 } hbase0 hbase
      (by have := hcnt; simp only [List.length_cons] at this; simp; omega)
    rw [hstep]
    constructor
    · refine List.Pairwise.cons ?_ hrec.1
      intro id hm
      have := hrec.2 id hm
      simp only at this
      omega
    · intro id hm
      rcases List.mem_cons.mp hm with rfl | hm
      · omega
      · have := hrec.2 id hm
        simp only at this
        omega

/-! ## Claims -/

/-- C10: initialize returns -EINVAL, without loading or attaching
anything and without invoking the callback, whenever the header
context is null, its data pointer is null, the payload context is
null, its data pointer is null, or the callback is null. -/
theorem C10_invalid_args_einval (hdr : Option header_ctx) (pl : Option payload_ctx)
    (cb_null : Bool) (env : init_env)
    (h : hdr = none ∨ (∃ hc, hdr = some hc ∧ hc.data = none) ∨ pl = none ∨
      (∃ pc, pl = some pc ∧ pc.data = none) ∨ cb_null = true) :
    initialize_entry hdr pl cb_null env = (-22, [], 0) := by
  rcases hdr with _ | hc
  · rcases pl with _ | pc <;> rfl
  · rcases pl with _ | pc
    · rfl
    · have hcond : hc.data = none ∨ pc.data = none ∨ cb_null = true := by
        rcases h with h | ⟨x, hx, hd⟩ | h | ⟨x, hx, hd⟩ | h
        · exact absurd h (by simp)
        · exact Or.inl (by cases hx; exact hd)
        · exact absurd h (by simp)
        · exact Or.inr (Or.inl (by cases hx; exact hd))
        · exact Or.inr (Or.inr h)
      simp only [initialize_entry]
      rw [if_pos]
      rcases hcond with h | h | h
      · exact Or.inl h
      · exact Or.inr (Or.inl h)
      · exact Or.inr (Or.inr (by simp [h]))

theorem C10_invalid_args_einval_witness :
    initialize_entry none (some { data := some (), size := 4096 }) false
      { calloc_ok := true, open_ok := true, load_ok := true, config_fd_ok := true
        config_write_ok := true, attach_ok := true, payload_fd_ok := true
        ringbuf_ok := true, events_delivered := 3 } = (-22, [], 0) :=
  C10_invalid_args_einval _ _ _ _ (Or.inl rfl)

/-- C7 (counterexample): at a task with exit_code 0 and exit_signal 9
the payload field is 0, not the exit_signal fallback the claim
describes; no fallback exists in payload_fill_sched_sched_process_exit. -/
theorem C7_counterexample :
    ¬ ((payload_fill_sched_sched_process_exit 4096 16 0 true (fun _ => true)
        (fun _ _ => 0) ⟨0, 0, 0⟩ 1000 exit_task0).2 =
      some (if exit_task0.exit_code = 0 then exit_task0.exit_signal
            else exit_task0.exit_code)) := by
  decide

/-- C7 (amended): for every process_exit event whose fixed payload is
successfully allocated, the payload's exit_code field is the task's
raw exit_code; there is no fallback to exit_signal. -/
theorem C7_exit_code_raw (PAGE_SIZE N_PAGES cpu : Nat) (state_ok : Bool)
    (page_ok : Nat → Bool) (arena : Nat → Nat → Nat) (st : buffer_state)
    (now : Nat) (t : task_info) (v : Int)
    (h : (payload_fill_sched_sched_process_exit PAGE_SIZE N_PAGES cpu state_ok
      page_ok arena st now t).2 = some v) :
    v = t.exit_code := by
  unfold payload_fill_sched_sched_process_exit at h
  simp only [] at h
  by_cases hb : (buf_malloc PAGE_SIZE N_PAGES cpu state_ok page_ok arena st now
      SIZEOF_PAYLOAD_EXIT).ret.isSome
  · rw [if_pos hb] at h
    exact (Option.some.inj h).symm
  · rw [if_neg hb] at h
    exact absurd h (by simp)

theorem C7_exit_code_raw_witness :
    (payload_fill_sched_sched_process_exit 4096 16 0 true (fun _ => true)
      (fun _ _ => 0) ⟨0, 0, 0⟩ 1000 exit_task1).2 = some 256 ∧
    (256 : Int) = exit_task1.exit_code := by
  refine ⟨by decide, ?_⟩
  exact C7_exit_code_raw 4096 16 0 true (fun _ => true) (fun _ _ => 0)
    ⟨0, 0, 0⟩ 1000 exit_task1 256 (by decide)

/-- C4 (counterexample): two start times that differ by 2^40 are
distinct yet produce the same upid for the same pid, refuting that two
events with distinct start_time never share a upid. -/
theorem C4_counterexample :
    make_upid 5 1099511627776 = make_upid 5 0 ∧ (1099511627776 : Nat) ≠ 0 := by
  constructor
  · decide
  · decide

/-- C4 (amended): make_upid is a pure function of (pid, start_ns) —
identical inputs give identical outputs; every header emitted by
create_event carries upid = make_upid(pid, start_time) and
uppid = make_upid(ppid, parent_start_time); and two events whose start
times differ in their low 40 bits never share a upid. -/
theorem C4_upid_shape :
    (∀ p₁ s₁ p₂ s₂, p₁ = p₂ → s₁ = s₂ → make_upid p₁ s₁ = make_upid p₂ s₂) ∧
    (∀ t etype ring_ok ktime boot_ns cpu st h,
      create_event t etype ring_ok ktime boot_ns cpu st = some h →
      h.upid = make_upid t.pid t.start_time ∧
      h.uppid = make_upid t.ppid t.parent_start_time) ∧
    (∀ p₁ s₁ p₂ s₂, s₁ % 2 ^ 40 ≠ s₂ % 2 ^ 40 → make_upid p₁ s₁ ≠ make_upid p₂ s₂) := by
  refine ⟨?_, ?_, ?_⟩
  · rintro p₁ s₁ p₂ s₂ rfl rfl; rfl
  · intro t etype ring_ok ktime boot_ns cpu st h hc
    unfold create_event at hc
    by_cases hr : ring_ok = false
    · rw [if_pos hr] at hc; exact absurd hc (by simp)
    · rw [if_neg hr] at hc
      cases hc
      exact ⟨rfl, rfl⟩
  · intro p₁ s₁ p₂ s₂ hs heq
    exact hs (by rw [← make_upid_mod p₁ s₁, ← make_upid_mod p₂ s₂, heq])

/-- C3: buf_malloc returns NULL exactly when the requested size exceeds
the page size or a map lookup fails; every successful allocation
satisfies offset + size ≤ PAGE_SIZE, so no allocation straddles a page
boundary; and a request that would not fit in the current page forces a
rollover first, landing at offset 0 of the fresh page. -/
theorem C3_buf_malloc_bounds (P N cpu : Nat) (state_ok : Bool)
    (page_ok : Nat → Bool) (arena : Nat → Nat → Nat) (st : buffer_state)
    (now size : Nat) :
    ((buf_malloc P N cpu state_ok page_ok arena st now size).ret = none ↔
      (P < size ∨ state_ok = false ∨
        page_ok (cpu_page_key N cpu
          (buf_malloc P N cpu state_ok page_ok arena st now size).state.current_page) =
          false)) ∧
    (∀ k off,
      (buf_malloc P N cpu state_ok page_ok arena st now size).ret = some (k, off) →
      off + size ≤ P) ∧
    (∀ k off,
      (buf_malloc P N cpu state_ok page_ok arena st now size).ret = some (k, off) →
      P ≤ st.current_offset + size → off = 0) := by
  by_cases hsz : P < size
  · simp only [buf_malloc, if_pos hsz]
    exact ⟨by simp [hsz], fun k off h => by simp at h, fun k off h => by simp at h⟩
  · by_cases hso : state_ok = false
    · simp only [buf_malloc, if_neg hsz, if_pos hso]
      exact ⟨by simp [hso], fun k off h => by simp at h, fun k off h => by simp at h⟩
    · simp only [buf_malloc, if_neg hsz, if_neg hso]
      set st1 := if st.page_start_timestamp_ns = 0
        then { st with page_start_timestamp_ns := now } else st with hst1def
      set R := buf_malloc_roll P N cpu page_ok arena st1 now size with hRdef
      have hoff1 : st1.current_offset = st.current_offset := by
        rw [hst1def]; split <;> rfl
      have hr := buf_malloc_roll_state P N cpu page_ok arena st1 now size
      rw [← hRdef] at hr
      by_cases hpo : page_ok (cpu_page_key N cpu R.1.current_page) = false
      · rw [if_pos hpo]
        exact ⟨by simp [hpo], fun k off h => by simp at h, fun k off h => by simp at h⟩
      · rw [if_neg hpo]
        have hofflt : ¬ (P - size < R.1.current_offset) := by
          rcases hr with hroll | ⟨hsame, hfit⟩
          · rw [hroll]; show ¬ (P - size < 0); omega
          · rw [hsame, hoff1] at *; omega
        rw [if_neg hofflt]
        refine ⟨by simp [hsz, hso, hpo], ?_, ?_⟩
        · intro k off h
          simp only [Option.some.injEq, Prod.mk.injEq] at h
          rcases hr with hroll | ⟨hsame, hfit⟩
          · rw [← h.2, hroll]; show (0 : Nat) + size ≤ P; omega
          · rw [← h.2, hsame]; omega
        · intro k off h hstrad
          simp only [Option.some.injEq, Prod.mk.injEq] at h
          rcases hr with hroll | ⟨hsame, hfit⟩
          · rw [← h.2, hroll]
          · rw [hoff1] at hfit; omega

theorem C3_buf_malloc_bounds_witness :
    (buf_malloc 4096 16 0 true (fun _ => true) (fun _ _ => 0)
        { current_page := 0, current_offset := 0, page_start_timestamp_ns := 0 }
        5 64).ret = some (0, 0) ∧
    (0 : Nat) + 64 ≤ 4096 :=
  ⟨by decide,
    (C3_buf_malloc_bounds 4096 16 0 true (fun _ => true) (fun _ _ => 0)
      { current_page := 0, current_offset := 0, page_start_timestamp_ns := 0 }
      5 64).2.1 0 0 (by decide)⟩

/-- C6: on every page rollover — whether triggered by an allocation
that does not fit or by the flush timeout — if at least 8 bytes of
slack remain in the abandoned page, the 8 bytes at the abandoned write
offset are zeroed before the cursor moves to the next page. -/
theorem C6_rollover_zeroing (P N cpu : Nat) (page_ok : Nat → Bool)
    (arena : Nat → Nat → Nat) (st : buffer_state) (now size : Nat)
    (h8 : 8 ≤ P) (hsz : size ≤ P) (hpage : ∀ k, page_ok k = true)
    (hslack : st.current_offset + 8 ≤ P)
    (htrig : P ≤ st.current_offset + size ∨
      (st.page_start_timestamp_ns ≠ 0 ∧
        PAYLOAD_FLUSH_TIMEOUT_NS < u64sub now st.page_start_timestamp_ns)) :
    (∀ o, st.current_offset ≤ o → o < st.current_offset + 8 →
      (buf_malloc P N cpu true page_ok arena st now size).arena
        (cpu_page_key N cpu st.current_page) o = 0) ∧
    (buf_malloc P N cpu true page_ok arena st now size).state.current_page =
      (st.current_page + 1) % N := by
  have hsz' : ¬ P < size := Nat.not_lt.mpr hsz
  simp only [buf_malloc, if_neg hsz', if_neg (by simp : ¬ (true = false))]
  set st1 := if st.page_start_timestamp_ns = 0
    then { st with page_start_timestamp_ns := now } else st with hst1def
  have hoff1 : st1.current_offset = st.current_offset := by
    rw [hst1def]; split <;> rfl
  have hpage1 : st1.current_page = st.current_page := by
    rw [hst1def]; split <;> rfl
  have hcond : P ≤ st1.current_offset + size ∨
      PAYLOAD_FLUSH_TIMEOUT_NS < u64sub now st1.page_start_timestamp_ns := by
    rcases htrig with h | ⟨hne, hto⟩
    · left; rw [hoff1]; exact h
    · right
      have : st1.page_start_timestamp_ns = st.page_start_timestamp_ns := by
        rw [hst1def, if_neg hne]
      rw [this]; exact hto
  have hroll : buf_malloc_roll P N cpu page_ok arena st1 now size =
      (({ current_page := (st1.current_page + 1) % N, current_offset := 0
          page_start_timestamp_ns := now } : buffer_state),
        zero8 arena (cpu_page_key N cpu st1.current_page) st1.current_offset) := by
    unfold buf_malloc_roll
    rw [if_pos hcond,
      if_pos ⟨by rw [hoff1]; exact hslack, hpage _, by rw [hoff1]; omega⟩]
  rw [hroll]
  rw [if_neg (by simp [hpage])]
  rw [if_neg (by show ¬ (P - size < 0); omega)]
  constructor
  · intro o ho1 ho2
    show zero8 arena (cpu_page_key N cpu st1.current_page) st1.current_offset
      (cpu_page_key N cpu st.current_page) o = 0
    unfold zero8
    rw [if_pos ⟨by rw [hpage1], by rw [hoff1]; exact ho1, by rw [hoff1]; exact ho2⟩]
  · show ((st1.current_page + 1) % N) = (st.current_page + 1) % N
    rw [hpage1]

theorem C6_rollover_zeroing_witness :
    (buf_malloc 4096 16 0 true (fun _ => true) (fun _ _ => 7)
        { current_page := 0, current_offset := 4000, page_start_timestamp_ns := 100 }
        200 200).arena (cpu_page_key 16 0 0) 4005 = 0 ∧
    (∀ o, 4000 ≤ o → o < 4000 + 8 →
      (buf_malloc 4096 16 0 true (fun _ => true) (fun _ _ => 7)
          { current_page := 0, current_offset := 4000, page_start_timestamp_ns := 100 }
          200 200).arena (cpu_page_key 16 0 0) o = 0) :=
  ⟨by decide,
    (C6_rollover_zeroing 4096 16 0 (fun _ => true) (fun _ _ => 7)
      { current_page := 0, current_offset := 4000, page_start_timestamp_ns := 100 }
      200 200 (by norm_num) (by norm_num) (fun _ => rfl) (by norm_num)
      (Or.inl (by norm_num))).1⟩

/-- C5: an event is suppressed by the user-side PID filter exactly when
its pid or its ppid is a member of the blacklist after the
exec-triggered invalidation and the predicate classification have run;
the blacklist seeded at registration consists of 0, 1, 2 and the
tracer's own PID. -/
theorem C5_suppression_iff :
    (∀ pred st e, (bootstrap_filter__should_skip pred st e).1 = true ↔
      (e.pid ∈ (filter_classify pred (filter_invalidate st e) e).blacklist ∨
       e.ppid ∈ (filter_classify pred (filter_invalidate st e) e).blacklist)) ∧
    (∀ self_pid x, x ∈ (bootstrap_filter__register_skeleton self_pid).blacklist ↔
      (x = 0 ∨ x = 1 ∨ x = 2 ∨ x = self_pid)) := by
  constructor
  · intro pred st e
    have hfst : (bootstrap_filter__should_skip pred st e).1 =
        (pidset_has (filter_classify pred (filter_invalidate st e) e).blacklist e.pid ||
         pidset_has (filter_classify pred (filter_invalidate st e) e).blacklist e.ppid) := rfl
    rw [hfst, Bool.or_eq_true, pidset_has_iff, pidset_has_iff]
  · intro self_pid x
    have h1 : pidset_add (pidset_add (pidset_add ([] : List Nat) 0) 1) 2 = [0, 1, 2] := by
      decide
    have h2 : (bootstrap_filter__register_skeleton self_pid).blacklist =
        pidset_add (pidset_add (pidset_add (pidset_add [] 0) 1) 2) self_pid := rfl
    rw [h2, h1, mem_pidset_add _ _ _ (by decide)]
    simp only [List.mem_cons, List.not_mem_nil, or_false, or_assoc]

/-- C1: for every header that reaches the reassembler and passes the
PID filter, the resolved payload entry count equals
(end_index - start_index) mod N, N being the per-CPU arena entry
count; when the count is zero the callback is still invoked with the
payload context's event id and event type taken from the staged header
and a NULL payload data pointer, and no arena entry is copied. -/
theorem C1_payload_entries (pred : event_header_kernel → Bool) (fs : filter_state)
    (gs : gen_state) (sec nsec : Nat) (kh : event_header_kernel)
    (fixed pl_size : Nat) (descs : List Nat)
    (hskip : (bootstrap_filter__should_skip pred fs kh).1 = false) :
    ∃ d, (handle_header_flush pred fs gs sec nsec kh fixed pl_size descs).delivered =
        some d ∧
      (d.entries : Int) =
        ((kh.payload_end_index : Int) - (kh.payload_start_index : Int)) %
          (PAYLOAD_BUFFER_N_ENTRIES_PER_CPU : Int) ∧
      (d.entries = 0 →
        d.payload_event_id = d.header_event_id ∧ d.payload_etype = kh.etype ∧
        d.payload_data_null = true ∧ d.copied_keys = []) := by
  simp only [handle_header_flush, hskip, Bool.false_eq_true, if_false]
  by_cases h0 : (kh.payload_end_index % PAYLOAD_BUFFER_N_ENTRIES_PER_CPU +
      PAYLOAD_BUFFER_N_ENTRIES_PER_CPU -
      kh.payload_start_index % PAYLOAD_BUFFER_N_ENTRIES_PER_CPU) %
      PAYLOAD_BUFFER_N_ENTRIES_PER_CPU = 0
  · rw [if_pos h0]
    refine ⟨_, rfl, ?_, fun _ => ⟨rfl, rfl, rfl, rfl⟩⟩
    exact entries_eq_mod kh.payload_start_index kh.payload_end_index
  · rw [if_neg h0]
    exact ⟨_, rfl, entries_eq_mod kh.payload_start_index kh.payload_end_index,
      fun hz => absurd hz h0⟩

theorem C1_payload_entries_witness :
    (bootstrap_filter__should_skip (fun _ => false) ⟨[], []⟩ kh_empty).1 = false ∧
    ∃ d, (handle_header_flush (fun _ => false) ⟨[], []⟩ ⟨0, 0⟩ 1 0 kh_empty 0 64
        []).delivered = some d ∧
      (d.entries : Int) =
        ((kh_empty.payload_end_index : Int) - (kh_empty.payload_start_index : Int)) %
          (PAYLOAD_BUFFER_N_ENTRIES_PER_CPU : Int) ∧
      (d.entries = 0 →
        d.payload_event_id = d.header_event_id ∧ d.payload_etype = kh_empty.etype ∧
        d.payload_data_null = true ∧ d.copied_keys = []) :=
  ⟨by decide, C1_payload_entries (fun _ => false) ⟨[], []⟩ ⟨0, 0⟩ 1 0 kh_empty 0 64 []
    (by decide)⟩

theorem resolve_dyn_fields_bad_desc_empty (pl_size buffer_start dyn_write desc : Nat)
    (rest : List Nat)
    (h : desc = 0 ∨ desc_byte_len desc = 0 ∨
      FLUSH_MAX_BYTES <
        (desc_rel_idx buffer_start (desc_byte_idx desc) + desc_byte_len desc) % U32 ∨
      pl_size < dyn_write + desc_byte_len desc) :
    resolve_dyn_fields pl_size buffer_start dyn_write (desc :: rest) =
      flex_empty :: resolve_dyn_fields pl_size buffer_start dyn_write rest := by
  by_cases h0 : desc = 0
  · simp [resolve_dyn_fields, h0]
  · have hcond : desc_byte_len desc = 0 ∨
        FLUSH_MAX_BYTES <
          (desc_rel_idx buffer_start (desc_byte_idx desc) + desc_byte_len desc) % U32 ∨
        pl_size < dyn_write + desc_byte_len desc := by tauto
    simp only [resolve_dyn_fields, if_neg h0]
    rw [if_pos hcond]

theorem handle_header_flush_copy_cap (pred : event_header_kernel → Bool)
    (fs : filter_state) (gs : gen_state) (sec nsec : Nat)
    (kh : event_header_kernel) (fixed pl_size : Nat) (descs : List Nat)
    (hskip : (bootstrap_filter__should_skip pred fs kh).1 = false) :
    ∃ d, (handle_header_flush pred fs gs sec nsec kh fixed pl_size descs).delivered =
        some d ∧
      d.copied_keys.length =
        min d.entries (FLUSH_MAX_BYTES / PAYLOAD_BUFFER_ENTRY_SIZE) := by
  simp only [handle_header_flush, hskip, Bool.false_eq_true, if_false]
  by_cases h0 : (kh.payload_end_index % PAYLOAD_BUFFER_N_ENTRIES_PER_CPU +
      PAYLOAD_BUFFER_N_ENTRIES_PER_CPU -
      kh.payload_start_index % PAYLOAD_BUFFER_N_ENTRIES_PER_CPU) %
      PAYLOAD_BUFFER_N_ENTRIES_PER_CPU = 0
  · rw [if_pos h0]
    refine ⟨_, rfl, ?_⟩
    simp only [List.length_nil, h0, Nat.zero_min]
  · rw [if_neg h0]
    exact ⟨_, rfl, flush_copy_length _ _ _⟩

/-- C2 (code bug): the source-range check of bootstrap.c wraps in u32,
so a descriptor whose real source range vastly exceeds the 64 KiB
scratch (rel_idx 1000, byte_length 4294966796; true sum well past the
scratch size) slips past the wrapped check and, with a consumer buffer
larger than 4 GiB, is copied as a non-empty field instead of being set
to empty — the claimed empty-field guarantee fails on the program. -/
theorem C2_wrap_bug_eval :
    FLUSH_MAX_BYTES <
      desc_rel_idx 0 (desc_byte_idx 4299262262796) + desc_byte_len 4299262262796 ∧
    (desc_rel_idx 0 (desc_byte_idx 4299262262796) + desc_byte_len 4299262262796) % U32 =
      500 ∧
    resolve_dyn_fields 21474836480 0 0 [4299262262796] =
      [{ byte_length := 4294966796, data := some 0 }] := by
  refine ⟨by decide, by decide, by decide⟩

/-- C9 (code bug): same u32 wrap in the source-range check — a
descriptor translating to rel_idx 2000 with byte_length 4294965896
reads far past the scratch buffer's size, yet its wrapped check passes
and with a consumer buffer larger than 4 GiB the bytes are copied
(an out-of-bounds read of the scratch) rather than the field resolving
to empty. -/
theorem C9_wrap_bug_eval :
    FLUSH_MAX_BYTES <
      desc_rel_idx 0 (desc_byte_idx 8594229557896) + desc_byte_len 8594229557896 ∧
    (desc_rel_idx 0 (desc_byte_idx 8594229557896) + desc_byte_len 8594229557896) % U32 =
      600 ∧
    resolve_dyn_fields 21474836480 0 0 [8594229557896] =
      [{ byte_length := 4294965896, data := some 0 }] := by
  refine ⟨by decide, by decide, by decide⟩

/-- C8: event ids are generated as id = base + ++counter with the base
seeded lazily from the first clock reading and then fixed for the run;
across one run the ids handed to delivered events are strictly
increasing.  The clock bounds (positive seconds below 2^31, nanoseconds
below 2^32, as clock_gettime guarantees) and the run-length bound rule
out 64-bit wraparound. -/
theorem C8_event_ids_strictly_increasing (clocks : List (Nat × Nat))
    (hc : ∀ c ∈ clocks, 1 ≤ c.1 ∧ c.1 < 2 ^ 31 ∧ c.2 < 2 ^ 32)
    (hlen : clocks.length ≤ 2 ^ 62) :
    List.Pairwise (· < ·) (run_event_ids { base := 0, counter := 0 } clocks) := by
  cases clocks with
  | nil => simp [run_event_ids]
  | cons c rest =>
    obtain ⟨hs1, hs2, hn⟩ := hc c (List.mem_cons_self c rest)
    have hshift : c.1 <<< 32 = c.1 * 2 ^ 32 := Nat.shiftLeft_eq c.1 32
    have hlt63 : c.1 <<< 32 < 2 ^ 63 := by
      rw [hshift]
      calc c.1 * 2 ^ 32 < 2 ^ 31 * 2 ^ 32 :=
            (Nat.mul_lt_mul_right (by norm_num)).mpr hs2
        _ = 2 ^ 63 := by norm_num
    have hmod1 : (c.1 <<< 32) % U64 = c.1 <<< 32 :=
      Nat.mod_eq_of_lt (lt_trans hlt63 (by norm_num [U64]))
    have hmod2 : c.2 % U64 = c.2 := Nat.mod_eq_of_lt (lt_trans hn (by norm_num [U64]))
    have hseedlt : ((c.1 <<< 32) % U64) ^^^ (c.2 % U64) < 2 ^ 63 := by
      rw [hmod1, hmod2]
      exact Nat.xor_lt_two_pow hlt63 (lt_trans hn (by norm_num))
    have hseedpos : 0 < ((c.1 <<< 32) % U64) ^^^ (c.2 % U64) := by
      rcases Nat.eq_zero_or_pos (((c.1 <<< 32) % U64) ^^^ (c.2 % U64)) with h0 | h
      · exfalso
        rw [hmod1, hmod2, Nat.xor_eq_zero] at h0
        have hge : 2 ^ 32 ≤ c.1 <<< 32 := by
          rw [hshift]
          calc (2 : Nat) ^ 32 = 1 * 2 ^ 32 := by ring
            _ ≤ c.1 * 2 ^ 32 := Nat.mul_le_mul_right _ hs1
        omega
      · exact h
    have hstep : run_event_ids { base := 0, counter := 0 } (c :: rest) =
        ((((c.1 <<< 32) % U64) ^^^ (c.2 % U64)) + 1) ::
          run_event_ids
            { base := ((c.1 <<< 32) % U64) ^^^ (c.2 % U64), counter := 1 } rest := by
      show (generate_event_id c.1 c.2 { base := 0, counter := 0 }).1 ::
          run_event_ids (generate_event_id c.1 c.2 { base := 0, counter := 0 }).2 rest = _
      unfold generate_event_id
      have h1 : ((0 : Nat) + 1) % U64 = 1 := by norm_num [U64]
      have h2 : ((((c.1 <<< 32) % U64) ^^^ (c.2 % U64)) + 1) % U64 =
          (((c.1 <<< 32) % U64) ^^^ (c.2 % U64)) + 1 := by
        apply Nat.mod_eq_of_lt
        have : (2 : Nat) ^ 63 + 1 < U64 := by norm_num [U64]
        omega
      simp only [if_pos rfl, if_true, h1, h2]
    rw [hstep]
    have hrec := run_event_ids_invariant rest
      { base := ((c.1 <<< 32) % U64) ^^^ (c.2 % U64), counter := 1 }
      hseedpos hseedlt
      (by
        simp only
        have : (c :: rest).length = rest.length + 1 := List.length_cons c rest
        have h62 : (2 : Nat) ^ 62 ≤ 2 ^ 63 - 1 := by norm_num
        omega)
    refine List.Pairwise.cons ?_ hrec.1
    intro id hm
    have := hrec.2 id hm
    simp only at this
    omega

theorem C8_event_ids_strictly_increasing_witness :
    ((∀ c ∈ [((1 : Nat), (0 : Nat)), (1, 5)], 1 ≤ c.1 ∧ c.1 < 2 ^ 31 ∧ c.2 < 2 ^ 32) ∧
      ([((1 : Nat), (0 : Nat)), (1, 5)].length ≤ 2 ^ 62)) ∧
    List.Pairwise (· < ·)
      (run_event_ids { base := 0, counter := 0 } [((1 : Nat), (0 : Nat)), (1, 5)]) :=
  ⟨⟨by decide, by norm_num⟩,
    C8_event_ids_strictly_increasing [((1 : Nat), (0 : Nat)), (1, 5)]
      (by decide) (by norm_num)⟩

theorem C4_upid_shape_witness :
    make_upid 7 3 = make_upid 7 3 ∧
    (create_event exit_task0 event_type.sched_sched_process_exit true 10 20 0
        (some ⟨2, 64, 5⟩)).isSome ∧
    ((3 : Nat) % 2 ^ 40 ≠ (4 : Nat) % 2 ^ 40 ∧ make_upid 7 3 ≠ make_upid 9 4) := by
  refine ⟨C4_upid_shape.1 7 3 7 3 rfl rfl, by decide, by decide,
    C4_upid_shape.2.2 7 3 9 4 (by decide)⟩

end Tracer
